import Mathlib

/-!
Verification development for the scene resource and draw-state manager
(`SceneManager.cpp`): the fixed-capacity texture registry, the material
registry, the transform composer and the draw-state composer, together with
the object-builder routines of the scene assembler.

The C++ code is embedded shallowly: the registries become Lean lists with an
occupancy counter, the OpenGL context becomes an explicit handle-allocation
state, the shader interface becomes a record of uniform values plus a write
log, machine floats become exact rationals (registry data) or reals
(transform matrices), and statements whose C++ execution is undefined
behavior (an out-of-bounds array write, a null-pointer dereference) are
modelled as `none` of an `Option` result.
-/

/-- One entry of the texture registry array `m_textureIDs`: a tag string and
the OpenGL texture handle (`GLuint ID` in the source; the constructor stores
`-1`, so the field is modelled as `Int`). -/
structure TEXTURE_ID where
  tag : String
  ID : Int
deriving DecidableEq

/-- The state of the OpenGL texture-name allocator, recording which handles
are live and how often the generate / delete entry points were invoked.
`glGenTextures` hands out fresh consecutive handles; `glDeleteTextures`
releases one.  (Model of the external graphics API used by the source.) -/
structure GLState where
  nextID : Int
  live : List Int
  genCalls : Nat
  deleteCalls : Nat
deriving DecidableEq

/-- `glGenTextures(1, &id)`: allocates one fresh texture handle. -/
def glGenTextures (gl : GLState) : Int × GLState :=
  (gl.nextID,
    { nextID := gl.nextID + 1
      live := gl.nextID :: gl.live
      genCalls := gl.genCalls + 1
      deleteCalls := gl.deleteCalls })

/-- `glDeleteTextures(1, &id)`: releases one texture handle.  The embedded
`SceneManager` code never calls this operation; it is defined so that the
teardown claim can speak about delete-texture invocations. -/
def glDeleteTextures (id : Int) (gl : GLState) : GLState :=
  { gl with live := gl.live.erase id, deleteCalls := gl.deleteCalls + 1 }

/-- The texture registry half of the `SceneManager` state: the slot array
`m_textureIDs` (declared with 16 entries; the constructor initializes
indices 0..15) and the occupancy counter `m_loadedTextures`. -/
structure TexRegistry where
  textureIDs : List TEXTURE_ID
  loadedTextures : Nat
deriving DecidableEq

/-- The registry as initialized by the `SceneManager` constructor
(lines 40-45): 16 slots holding tag `"/0"` and handle `-1`, occupancy 0. -/
def initialTexRegistry : TexRegistry :=
  { textureIDs := List.replicate 16 { tag := "/0", ID := -1 }
    loadedTextures := 0 }

/-- The registration step at the end of `CreateGLTexture` (lines 123-125):
`m_textureIDs[m_loadedTextures].ID = textureID; .tag = tag;
m_loadedTextures++`.  The source performs no capacity check, so when
`m_loadedTextures` is not below the slot-array length the store is an
out-of-bounds array write — undefined behavior, modelled as `none`. -/
def registerLoadedTexture (textureID : Int) (tag : String) (reg : TexRegistry)
    (gl : GLState) : Option (Bool × TexRegistry × GLState) :=
  if reg.loadedTextures < reg.textureIDs.length then
    some (true,
      { textureIDs := reg.textureIDs.set reg.loadedTextures { tag := tag, ID := textureID }
        loadedTextures := reg.loadedTextures + 1 },
      gl)
  else
    none

/-- `SceneManager::CreateGLTexture` (lines 70-134).  The image decode is
externalized into the parameters `imageOk` (whether `stbi_load` returned a
buffer) and `colorChannels`.  On a successful decode the source first calls
`glGenTextures`, then uploads for 3 or 4 channels (any other channel count
returns `false` with no registration, after the handle was already
generated), then registers the texture in the next slot with no capacity
check. -/
def CreateGLTexture (imageOk : Bool) (colorChannels : Int) (tag : String)
    (reg : TexRegistry) (gl : GLState) : Option (Bool × TexRegistry × GLState) :=
  if imageOk then
    let gen := glGenTextures gl
    if colorChannels = 3 then
      registerLoadedTexture gen.1 tag reg gen.2
    else if colorChannels = 4 then
      registerLoadedTexture gen.1 tag reg gen.2
    else
      some (false, reg, gen.2)
  else
    some (false, reg, gl)

/-- Overwrite the `ID` field of slot `i`, leaving the tag in place — the
effect of `glGenTextures(1, &m_textureIDs[i].ID)`. -/
def setSlotID : List TEXTURE_ID → Nat → Int → List TEXTURE_ID
  | [], _, _ => []
  | t :: rest, 0, newID => { t with ID := newID } :: rest
  | t :: rest, n + 1, newID => t :: setSlotID rest n newID

/-- The loop body of `SceneManager::DestroyGLTextures` (lines 160-163):
for each occupied slot it calls `glGenTextures(1, &m_textureIDs[i].ID)`,
allocating a fresh handle into the slot.  `fuel` counts the remaining
iterations, `i` the current index. -/
def destroyGLTexturesAux : Nat → Nat → List TEXTURE_ID → GLState →
    List TEXTURE_ID × GLState
  | _, 0, slots, gl => (slots, gl)
  | i, fuel + 1, slots, gl =>
    let gen := glGenTextures gl
    destroyGLTexturesAux (i + 1) fuel (setSlotID slots i gen.1) gen.2

/-- `SceneManager::DestroyGLTextures` (lines 158-164): iterates
`i = 0 .. m_loadedTextures - 1` calling `glGenTextures` on each slot's
handle field; `m_loadedTextures` itself is not modified. -/
def DestroyGLTextures (reg : TexRegistry) (gl : GLState) : TexRegistry × GLState :=
  let r := destroyGLTexturesAux 0 reg.loadedTextures reg.textureIDs gl
  ({ textureIDs := r.1, loadedTextures := reg.loadedTextures }, r.2)

/-- The scan of `SceneManager::FindTextureID` (lines 178-187): walk the
occupied prefix, return the first matching slot's handle, else `-1`. -/
def findTextureIDLoop : List TEXTURE_ID → String → Int
  | [], _ => -1
  | t :: rest, tag => if t.tag = tag then t.ID else findTextureIDLoop rest tag

/-- `SceneManager::FindTextureID` (lines 172-190). -/
def FindTextureID (reg : TexRegistry) (tag : String) : Int :=
  findTextureIDLoop (reg.textureIDs.take reg.loadedTextures) tag

/-- The scan of `SceneManager::FindTextureSlot` (lines 204-213): walk the
occupied prefix keeping the running index, return the first matching
index, else `-1`. -/
def findTextureSlotLoop : List TEXTURE_ID → String → Nat → Int
  | [], _, _ => -1
  | t :: rest, tag, index =>
    if t.tag = tag then Int.ofNat index else findTextureSlotLoop rest tag (index + 1)

/-- `SceneManager::FindTextureSlot` (lines 198-216). -/
def FindTextureSlot (reg : TexRegistry) (tag : String) : Int :=
  findTextureSlotLoop (reg.textureIDs.take reg.loadedTextures) tag 0

/-- An RGB triple of lighting coefficients (`glm::vec3` in the source;
the stored values are exact decimal literals, modelled as rationals). -/
structure Vec3q where
  x : ℚ
  y : ℚ
  z : ℚ
deriving DecidableEq

/-- The `OBJECT_MATERIAL` record: lighting coefficients plus lookup tag. -/
structure OBJECT_MATERIAL where
  ambientColor : Vec3q
  ambientStrength : ℚ
  diffuseColor : Vec3q
  specularColor : Vec3q
  shininess : ℚ
  tag : String
deriving DecidableEq

/-- The five coefficient fields that `FindMaterial` copies into its caller's
out-parameter (the `tag` field is not copied). -/
structure MaterialValues where
  ambientColor : Vec3q
  ambientStrength : ℚ
  diffuseColor : Vec3q
  specularColor : Vec3q
  shininess : ℚ
deriving DecidableEq

/-- The coefficient projection of a registered material. -/
def OBJECT_MATERIAL.values (m : OBJECT_MATERIAL) : MaterialValues :=
  { ambientColor := m.ambientColor
    ambientStrength := m.ambientStrength
    diffuseColor := m.diffuseColor
    specularColor := m.specularColor
    shininess := m.shininess }

/-- The scan loop of `SceneManager::FindMaterial` (lines 233-248): walk the
list, and at the first tag match copy the five coefficient fields into the
out-parameter and stop.  The result is the final content of the caller's
local `OBJECT_MATERIAL material` variable: `none` means the loop never wrote
it, so in C++ it holds its original indeterminate value. -/
def findMaterialLoop : List OBJECT_MATERIAL → String → Option MaterialValues
  | [], _ => none
  | m :: rest, tag =>
    if m.tag = tag then some m.values else findMaterialLoop rest tag

/-- `SceneManager::FindMaterial` (lines 224-251).  An empty registry returns
`false` at once (lines 226-229).  Otherwise the scan runs and the function
returns `true` (line 250) — the source returns the literal `true` after the
loop whether or not `bFound` was ever set, which the embedding reproduces
exactly.  The second component is the out-parameter content as in
`findMaterialLoop`. -/
def FindMaterial (ms : List OBJECT_MATERIAL) (tag : String) :
    Bool × Option MaterialValues :=
  if ms.length = 0 then
    (false, none)
  else
    (true, findMaterialLoop ms tag)

/-- 3-component real vector (`glm::vec3` positions / scales / angles). -/
abbrev V3 : Type := ℝ × ℝ × ℝ

/-- 4×4 real matrix (`glm::mat4`). -/
abbrev Mat4 : Type := Matrix (Fin 4) (Fin 4) ℝ

/-- `glm::radians`: degrees to radians. -/
noncomputable def radians (degrees : ℝ) : ℝ := degrees * (Real.pi / 180)

/-- `glm::scale(v)`: the non-uniform scaling matrix. -/
def glmScale (v : V3) : Mat4 :=
  !![v.1, 0, 0, 0;
     0, v.2.1, 0, 0;
     0, 0, v.2.2, 0;
     0, 0, 0, 1]

/-- `glm::rotate(angle, vec3(1,0,0))`: rotation about the X axis. -/
noncomputable def glmRotateX (angle : ℝ) : Mat4 :=
  !![1, 0, 0, 0;
     0, Real.cos angle, -Real.sin angle, 0;
     0, Real.sin angle, Real.cos angle, 0;
     0, 0, 0, 1]

/-- `glm::rotate(angle, vec3(0,1,0))`: rotation about the Y axis. -/
noncomputable def glmRotateY (angle : ℝ) : Mat4 :=
  !![Real.cos angle, 0, Real.sin angle, 0;
     0, 1, 0, 0;
     -Real.sin angle, 0, Real.cos angle, 0;
     0, 0, 0, 1]

/-- `glm::rotate(angle, vec3(0,0,1))`: rotation about the Z axis. -/
noncomputable def glmRotateZ (angle : ℝ) : Mat4 :=
  !![Real.cos angle, -Real.sin angle, 0, 0;
     Real.sin angle, Real.cos angle, 0, 0;
     0, 0, 1, 0;
     0, 0, 0, 1]

/-- `glm::translate(v)`: the translation matrix. -/
def glmTranslate (v : V3) : Mat4 :=
  !![1, 0, 0, v.1;
     0, 1, 0, v.2.1;
     0, 0, 1, v.2.2;
     0, 0, 0, 1]

/-- The model matrix computed by `SceneManager::SetTransformations`
(lines 275-283): `modelView = translation * rotationX * rotationY *
rotationZ * scale`, each rotation built from the degree argument converted
by `glm::radians`. -/
noncomputable def modelViewOf (scaleXYZ : V3)
    (XrotationDegrees YrotationDegrees ZrotationDegrees : ℝ)
    (positionXYZ : V3) : Mat4 :=
  glmTranslate positionXYZ *
    glmRotateX (radians XrotationDegrees) *
    glmRotateY (radians YrotationDegrees) *
    glmRotateZ (radians ZrotationDegrees) *
    glmScale scaleXYZ

/-- An RGBA color (`glm::vec4 currentColor` in `SetShaderColor`). -/
structure Vec4q where
  r : ℚ
  g : ℚ
  b : ℚ
  a : ℚ
deriving DecidableEq

/-- The uniform store of the external shader interface, together with a log
of the uniform names written, in order.  `material` is the latent value of
the five `material.*` uniforms as a block: `none` means they were last
written from an indeterminate (never-initialized) local. -/
structure ShaderState where
  model : Mat4
  bUseTexture : Bool
  objectColor : Vec4q
  objectTexture : Int
  UVscale : ℚ × ℚ
  material : Option MaterialValues
  writeLog : List String

/-- The `SceneManager` state visible to the embedded operations:
`pShaderManager` is `true` iff the borrowed shader-interface pointer
`m_pShaderManager` is non-null; `shader` is the pointee's uniform store;
`textures` bundles `m_textureIDs` with `m_loadedTextures`;
`m_objectMaterials` is the material registry. -/
structure SceneState where
  pShaderManager : Bool
  shader : ShaderState
  textures : TexRegistry
  m_objectMaterials : List OBJECT_MATERIAL

/-- `SceneManager::SetTransformations` (lines 259-289): composes the model
matrix and, only when the shader pointer is non-null, writes it to the
`model` uniform. -/
noncomputable def SetTransformations (scaleXYZ : V3)
    (XrotationDegrees YrotationDegrees ZrotationDegrees : ℝ)
    (positionXYZ : V3) (s : SceneState) : SceneState :=
  let modelView := modelViewOf scaleXYZ XrotationDegrees YrotationDegrees
    ZrotationDegrees positionXYZ
  if s.pShaderManager then
    { s with shader := { s.shader with
        model := modelView
        writeLog := s.shader.writeLog ++ ["model"] } }
  else
    s

/-- `SceneManager::SetShaderColor` (lines 297-316): when the shader pointer
is non-null, disables texture mode and writes the flat color. -/
def SetShaderColor (redColorValue greenColorValue blueColorValue alphaValue : ℚ)
    (s : SceneState) : SceneState :=
  let currentColor : Vec4q :=
    { r := redColorValue, g := greenColorValue, b := blueColorValue, a := alphaValue }
  if s.pShaderManager then
    { s with shader := { s.shader with
        bUseTexture := false
        objectColor := currentColor
        writeLog := s.shader.writeLog ++ ["bUseTexture", "objectColor"] } }
  else
    s

/-- `SceneManager::SetShaderTexture` (lines 324-335): when the shader
pointer is non-null, enables texture mode, resolves the tag via
`FindTextureSlot`, and writes the slot (or `-1`) as the sampler index. -/
def SetShaderTexture (textureTag : String) (s : SceneState) : SceneState :=
  if s.pShaderManager then
    let textureID := FindTextureSlot s.textures textureTag
    { s with shader := { s.shader with
        bUseTexture := true
        objectTexture := textureID
        writeLog := s.shader.writeLog ++ ["bUseTexture", "objectTexture"] } }
  else
    s

/-- `SceneManager::SetTextureUVScale` (lines 343-349): when the shader
pointer is non-null, writes the UV tiling scale. -/
def SetTextureUVScale (u v : ℚ) (s : SceneState) : SceneState :=
  if s.pShaderManager then
    { s with shader := { s.shader with
        UVscale := (u, v)
        writeLog := s.shader.writeLog ++ ["UVscale"] } }
  else
    s

/-- `SceneManager::SetShaderMaterial` (lines 357-375): on a non-empty
material registry it calls `FindMaterial` and, when that reports `true`,
writes the five `material.*` uniforms from the out-parameter — with no
null check on `m_pShaderManager`, so a null shader pointer at that point is
a null dereference (undefined behavior), modelled as `none`. -/
def SetShaderMaterial (materialTag : String) (s : SceneState) : Option SceneState :=
  if s.m_objectMaterials.length > 0 then
    if (FindMaterial s.m_objectMaterials materialTag).1 then
      if s.pShaderManager then
        some { s with shader := { s.shader with
          material := (FindMaterial s.m_objectMaterials materialTag).2
          writeLog := s.shader.writeLog ++
            ["material.ambientColor", "material.ambientStrength",
             "material.diffuseColor", "material.specularColor",
             "material.shininess"] } }
      else
        none
    else
      some s
  else
    some s

/-- The constant `matMult` of `DefineObjectMaterials` (line 445). -/
def matMult : ℚ := 0.25

/-- `woodMat` (lines 446-453). -/
def woodMat : OBJECT_MATERIAL :=
  { ambientColor := { x := 0.38, y := 0.26, z := 0.1 }
    ambientStrength := 0.2 * matMult
    diffuseColor := { x := 0.36, y := 0.24, z := 0.12 }
    specularColor := { x := 0.12, y := 0.14, z := 0.08 }
    shininess := 0.3
    tag := "wood" }

/-- `plasticMat` (lines 455-462). -/
def plasticMat : OBJECT_MATERIAL :=
  { ambientColor := { x := 0.0005, y := 0.0005, z := 0.0005 }
    ambientStrength := 0.3
    diffuseColor := { x := 0.05, y := 0.05, z := 0.06 }
    specularColor := { x := 0.06, y := 0.05, z := 0.05 }
    shininess := 0.2
    tag := "plastic" }

/-- `rubberMat` (lines 464-471). -/
def rubberMat : OBJECT_MATERIAL :=
  { ambientColor := { x := 0.92, y := 0.24, z := 0.90 }
    ambientStrength := 0.3 * matMult
    diffuseColor := { x := 0.93, y := 0.28, z := 0.92 }
    specularColor := { x := 0.94, y := 0.30, z := 0.93 }
    shininess := 0
    tag := "rubber" }

/-- `glassMat` (lines 473-480). -/
def glassMat : OBJECT_MATERIAL :=
  { ambientColor := { x := 0.7, y := 0.7, z := 0.7 }
    ambientStrength := 0.1 * matMult
    diffuseColor := { x := 0.84, y := 0.84, z := 0.84 }
    specularColor := { x := 0.92, y := 0.92, z := 0.92 }
    shininess := 32
    tag := "glass" }

/-- `brickMat` (lines 482-489). -/
def brickMat : OBJECT_MATERIAL :=
  { ambientColor := { x := 0.8, y := 0.8, z := 0.8 }
    ambientStrength := 0.2 * matMult
    diffuseColor := { x := 0.84, y := 0.84, z := 0.84 }
    specularColor := { x := 0.92, y := 0.92, z := 0.92 }
    shininess := 0.1
    tag := "brick" }

/-- `paperMat` (lines 491-498). -/
def paperMat : OBJECT_MATERIAL :=
  { ambientColor := { x := 0.8, y := 0.8, z := 0.8 }
    ambientStrength := 0.3 * matMult
    diffuseColor := { x := 0.84, y := 0.84, z := 0.84 }
    specularColor := { x := 0.92, y := 0.92, z := 0.92 }
    shininess := 0.1
    tag := "paper" }

/-- `topBookCoverMat` (lines 500-507). -/
def topBookCoverMat : OBJECT_MATERIAL :=
  { ambientColor := { x := 0.3, y := 0.3, z := 0.3 }
    ambientStrength := 0.5 * matMult
    diffuseColor := { x := 0, y := 0.3, z := 0.3 }
    specularColor := { x := 0.3, y := 0.3, z := 0.3 }
    shininess := 0.4
    tag := "top_cover" }

/-- `bottomBookCoverMat` (lines 509-516). -/
def bottomBookCoverMat : OBJECT_MATERIAL :=
  { ambientColor := { x := 0.84, y := 0.726, z := 0.012 }
    ambientStrength := 0.5 * matMult
    diffuseColor := { x := 0.89, y := 0.73, z := 0.02 }
    specularColor := { x := 0.895, y := 0.73, z := 0.03 }
    shininess := 0.4
    tag := "bottom_cover" }

/-- The material registry after `SceneManager::DefineObjectMaterials`
(lines 444-517): the eight materials in `push_back` order. -/
def DefineObjectMaterials : List OBJECT_MATERIAL :=
  [woodMat, plasticMat, rubberMat, glassMat, brickMat, paperMat,
   topBookCoverMat, bottomBookCoverMat]

/-- The GL allocator before any texture call (fresh handles from 1). -/
def initialGLState : GLState :=
  { nextID := 1, live := [], genCalls := 0, deleteCalls := 0 }

/-- The four `CreateGLTexture` calls of `SceneManager::LoadScenetexture`
(lines 431-434), with every scene `.jpg` decoding successfully as a
3-channel image (the load-time external input assumed by the scene). -/
def LoadScenetexture (reg : TexRegistry) (gl : GLState) :
    Option (TexRegistry × GLState) := do
  let r1 ← CreateGLTexture true 3 "brick" reg gl
  let r2 ← CreateGLTexture true 3 "desk" r1.2.1 r1.2.2
  let r3 ← CreateGLTexture true 3 "wood" r2.2.1 r2.2.2
  let r4 ← CreateGLTexture true 3 "plastic" r3.2.1 r3.2.2
  some (r4.2.1, r4.2.2)

/-- The texture registry of the prepared scene — the result of
`LoadScenetexture` on the constructor-initialized registry (tags `brick`,
`desk`, `wood`, `plastic` in slots 0-3), written out literally; the theorem
`sceneTextures_is_load_result` checks it against the load sequence. -/
def sceneTextures : TexRegistry :=
  { textureIDs :=
      [{ tag := "brick", ID := 1 }, { tag := "desk", ID := 2 },
       { tag := "wood", ID := 3 }, { tag := "plastic", ID := 4 }] ++
      List.replicate 12 { tag := "/0", ID := -1 }
    loadedTextures := 4 }

/-- One mesh draw as observed through the shader interface: the latent
model matrix, sampler slot (or `-1` sentinel) and `material.*` block at the
moment a `Draw*Mesh` call is issued. -/
structure DrawEvent where
  model : Mat4
  textureSlot : Int
  material : Option MaterialValues

/-- The draw event captured from the current shader state. -/
def drawEvent (s : SceneState) : DrawEvent :=
  { model := s.shader.model
    textureSlot := s.shader.objectTexture
    material := s.shader.material }

/-- One statement of an object-builder routine body.  The builders of the
source are straight-line sequences of composer calls and mesh draws with no
branching, so each body is represented by the literal list of its calls and
executed by `run` through the shallow operations above. -/
inductive Instr where
  | setTransformations (scaleXYZ : V3) (xr yr zr : ℝ) (positionXYZ : V3)
  | setShaderColor (r g b a : ℚ)
  | setShaderTexture (tag : String)
  | setTextureUVScale (u v : ℚ)
  | setShaderMaterial (tag : String)
  | draw (mesh : String)

/-- Execute one builder statement: the composer calls thread the state (a
null-pointer dereference propagates as `none`), a draw emits the event. -/
noncomputable def runInstr : Instr → SceneState → Option (List DrawEvent × SceneState)
  | .setTransformations v xr yr zr p, s => some ([], SetTransformations v xr yr zr p s)
  | .setShaderColor r g b a, s => some ([], SetShaderColor r g b a s)
  | .setShaderTexture tag, s => some ([], SetShaderTexture tag s)
  | .setTextureUVScale u v, s => some ([], SetTextureUVScale u v s)
  | .setShaderMaterial tag, s => (SetShaderMaterial tag s).map fun s2 => ([], s2)
  | .draw _, s => some ([drawEvent s], s)

/-- Execute a builder body in order, concatenating the emitted events. -/
noncomputable def run : List Instr → SceneState → Option (List DrawEvent × SceneState)
  | [], s => some ([], s)
  | i :: rest, s =>
    (runInstr i s).bind fun r =>
      (run rest r.2).map fun r2 => (r.1 ++ r2.1, r2.2)

/-- Does the statement write the latent model matrix? -/
def writesModel : Instr → Bool
  | .setTransformations _ _ _ _ _ => true
  | _ => false

/-- Does the statement write the latent sampler slot? -/
def writesTextureSlot : Instr → Bool
  | .setShaderTexture _ => true
  | _ => false

/-- Does the statement write the latent `material.*` block? -/
def writesMaterialBlock : Instr → Bool
  | .setShaderMaterial _ => true
  | _ => false

/-- Is the statement a mesh draw? -/
def isDraw : Instr → Bool
  | .draw _ => true
  | _ => false

/-- Whether some draw occurs before the first statement satisfying `w`:
such a body reads the initial latent value of the corresponding shader
field. -/
def readsInitial (w : Instr → Bool) : List Instr → Bool
  | [] => false
  | i :: rest =>
    if isDraw i then true else if w i then false else readsInitial w rest

/-- The body of `SceneManager::MakeDesk` (lines 540-581). -/
noncomputable def deskProg : List Instr :=
  [.setTransformations (30, 1, 10) 0 0 0 (0, 0, 0),
   .setShaderTexture "desk",
   .setTextureUVScale 2 2,
   .setShaderMaterial "wood",
   .draw "plane"]

/-- `SceneManager::MakeDesk` (lines 540-581): one textured plane. -/
noncomputable def MakeDesk : SceneState → Option (List DrawEvent × SceneState) :=
  run deskProg

/-- The body of `SceneManager::MakeBackWall` (lines 583-624). -/
noncomputable def backWallProg : List Instr :=
  [.setTransformations (30, 1, 10) 90 0 0 (0, 10, -10),
   .setShaderTexture "brick",
   .setTextureUVScale 7 3,
   .setShaderMaterial "brick",
   .draw "plane"]

/-- `SceneManager::MakeBackWall` (lines 583-624): one textured plane. -/
noncomputable def MakeBackWall : SceneState → Option (List DrawEvent × SceneState) :=
  run backWallProg

/-- The body of `SceneManager::MakeDeskStand` (lines 626-731). -/
noncomputable def deskStandProg : List Instr :=
  [.setTransformations (14, 1, 4) 0 0 0 (0, 2, -6),
   .setShaderTexture "desk",
   .setTextureUVScale 1 1,
   .setShaderMaterial "wood",
   .draw "box",
   .setTransformations (1, 2, 4) 0 0 0 (6.5, 1, -6),
   .setShaderTexture "desk",
   .setTextureUVScale 1 1,
   .setShaderMaterial "wood",
   .draw "box",
   .setTransformations (1, 2, 4) 0 0 0 (-6.5, 1, -6),
   .setShaderTexture "desk",
   .setTextureUVScale 1 1,
   .setShaderMaterial "wood",
   .draw "box"]

/-- `SceneManager::MakeDeskStand` (lines 626-731): top plus two legs. -/
noncomputable def MakeDeskStand : SceneState → Option (List DrawEvent × SceneState) :=
  run deskStandProg

/-- The body of `SceneManager::MakeMug` (lines 733-866); only the first
draw sets a texture and material, the later draws inherit them. -/
noncomputable def mugProg : List Instr :=
  [.setTransformations (0.125, 0.75, 0.125) 0 0 90 (1.5, 4.1, -5),
   .setShaderTexture "plastic",
   .setShaderMaterial "glass",
   .draw "cylinder",
   .setTransformations (0.125, 0.75, 0.125) 0 0 90 (1.25, 3.1, -5),
   .draw "cylinder",
   .setTransformations (0.125, 1.3, 0.125) 0 0 165.86 (1.5, 4.2, -5),
   .draw "cylinder",
   .setTransformations (1, 2, 1) 0 0 180 (0, 4.5, -5),
   .draw "taperedCylinder"]

/-- `SceneManager::MakeMug` (lines 733-866): handle pieces and body. -/
noncomputable def MakeMug : SceneState → Option (List DrawEvent × SceneState) :=
  run mugProg

/-- The body of `SceneManager::MakeBooks` (lines 868-1078); no statement in
this builder sets a texture, so the sampler slot stays latent. -/
noncomputable def booksProg : List Instr :=
  [.setTransformations (3, 1, 4) 0 20 0 (-2.5, 0.5, 0),
   .setShaderMaterial "paper",
   .draw "box",
   .setTransformations (1.5, 0.5, 2) 0 20 0 (-2.5, 1.001, 0),
   .setShaderMaterial "bottom_cover",
   .draw "plane",
   .setTransformations (0.5, 1, 2) 0 20 90 (-3.93, 0.5, 0.495),
   .setShaderMaterial "bottom_cover",
   .draw "plane",
   .setTransformations (2.6, 1, 3.467) 0 (-20) 0 (-2.5, 1.5, 0),
   .setShaderMaterial "paper",
   .draw "box",
   .setTransformations (1.35, 0.5, 1.75) 0 (-20) 0 (-2.5, 2.001, 0),
   .setShaderMaterial "top_cover",
   .draw "plane",
   .setTransformations (0.5, 1, 1.75) 0 (-20) 90 (-3.73, 1.5, -0.535),
   .setShaderMaterial "top_cover",
   .draw "plane",
   .setTransformations (1.35, 0.5, 1.75) 0 (-20) 0 (-2.5, 0.999, 0),
   .setShaderMaterial "top_cover",
   .draw "plane"]

/-- `SceneManager::MakeBooks` (lines 868-1078): two books with covers. -/
noncomputable def MakeBooks : SceneState → Option (List DrawEvent × SceneState) :=
  run booksProg

/-- The body of `SceneManager::MakeLamp` (lines 1080-1208); positions carry
the `offset = {4, 0, -1}` of the source. -/
noncomputable def lampProg : List Instr :=
  [.setTransformations (1.5, 0.35, 1.5) 0 0 0 (-0.65 + 4, 0 + 0, 0 + (-1)),
   .setShaderTexture "plastic",
   .setShaderMaterial "plastic",
   .draw "cylinder",
   .setTransformations (0.25, 3.75, 0.25) 0 0 60 (1 + 4, 3.3 + 0, 0 + (-1)),
   .setShaderMaterial "plastic",
   .draw "box",
   .setTransformations (0.25, 4, 0.25) 0 0 (-60) (1 + 4, 1.3 + 0, 0 + (-1)),
   .setShaderMaterial "plastic",
   .draw "box",
   .setTransformations (1.25, 2, 1.25) (-15) 0 (-30) (-1 + 4, 3 + 0, 0.25 + (-1)),
   .setShaderMaterial "plastic",
   .draw "cone"]

/-- `SceneManager::MakeLamp` (lines 1080-1208): base, two arms, head. -/
noncomputable def MakeLamp : SceneState → Option (List DrawEvent × SceneState) :=
  run lampProg

/-- The body of `SceneManager::MakePenHolder` (lines 1210-1453); positions
carry the `offset = {-3, 3.5, -6}` of the source. -/
noncomputable def penHolderProg : List Instr :=
  [.setTransformations (1.5, 2, 0.25) 0 0 0 (0 + (-3), 0 + 3.5, 0.6 + (-6)),
   .setShaderTexture "wood",
   .setTextureUVScale 0.25 0.25,
   .setShaderMaterial "wood",
   .draw "box",
   .setTransformations (0.25, 2, 1.4) 0 0 0 (0.6 + (-3), 0 + 3.5, 0 + (-6)),
   .setShaderTexture "wood",
   .setTextureUVScale 0.25 0.25,
   .setShaderMaterial "wood",
   .draw "box",
   .setTransformations (0.25, 2, 1.4) 0 0 0 (-0.6 + (-3), 0 + 3.5, 0 + (-6)),
   .setShaderTexture "wood",
   .setTextureUVScale 0.25 0.25,
   .setShaderMaterial "wood",
   .draw "box",
   .setTransformations (1.5, 2, 0.25) 0 0 0 (0 + (-3), 0 + 3.5, -0.6 + (-6)),
   .setShaderTexture "wood",
   .setTextureUVScale 0.25 0.25,
   .setShaderMaterial "wood",
   .draw "box",
   .setTransformations (0.125, 3, 0.125) 0 0 15 (0.1 + (-3), -0.5 + 3.5, 0 + (-6)),
   .setShaderTexture "plastic",
   .setShaderMaterial "wood",
   .draw "cylinder",
   .setTransformations (0.125, 3, 0.125) 20 0 (-10) (0.1 + (-3), -0.5 + 3.5, -0.5 + (-6)),
   .setShaderMaterial "wood",
   .draw "cylinder",
   .setTransformations (0.12, 0.2, 0.12) 0 0 15 (-0.66 + (-3), 2.35 + 3.5, 0 + (-6)),
   .setShaderMaterial "rubber",
   .draw "cylinder",
   .setTransformations (0.12, 0.2, 0.12) 20 0 (-10) (0.61 + (-3), 2.21 + 3.5, 0.49 + (-6)),
   .setShaderMaterial "rubber",
   .draw "cylinder"]

/-- `SceneManager::MakePenHolder` (lines 1210-1453): four walls, two
pencils, two erasers. -/
noncomputable def MakePenHolder : SceneState → Option (List DrawEvent × SceneState) :=
  run penHolderProg

/-- `SceneManager::RenderScene` (lines 417-426): the seven builders in
order, with the draw events concatenated. -/
noncomputable def RenderScene (s : SceneState) : Option (List DrawEvent × SceneState) := do
  let r1 ← MakeDesk s
  let r2 ← MakeBackWall r1.2
  let r3 ← MakeDeskStand r2.2
  let r4 ← MakeMug r3.2
  let r5 ← MakeBooks r4.2
  let r6 ← MakeLamp r5.2
  let r7 ← MakePenHolder r6.2
  some (r1.1 ++ r2.1 ++ r3.1 ++ r4.1 ++ r5.1 ++ r6.1 ++ r7.1, r7.2)

/-- The sequence of draw events one invocation of a builder emits. -/
noncomputable def builderTrace
    (B : SceneState → Option (List DrawEvent × SceneState)) (s : SceneState) :
    Option (List DrawEvent) :=
  (B s).map Prod.fst

/-- The sequence of draw events a second, consecutive invocation of the
same builder emits, starting from the state the first invocation left. -/
noncomputable def builderTraceTwice
    (B : SceneState → Option (List DrawEvent × SceneState)) (s : SceneState) :
    Option (List DrawEvent) :=
  (B s).bind fun r => (B r.2).map Prod.fst

/-- The `SceneState` of the prepared scene: a live shader interface with
arbitrary latent uniform values `sh`, the loaded texture registry, and the
defined materials. -/
def sceneState (sh : ShaderState) : SceneState :=
  { pShaderManager := true
    shader := sh
    textures := sceneTextures
    m_objectMaterials := DefineObjectMaterials }

/-- A point in homogeneous coordinates, as the column vector a `glm::mat4`
is applied to. -/
def homog (p : V3) : Fin 4 → ℝ := ![p.1, p.2.1, p.2.2, 1]

/-- Componentwise scaling of a point — `scale(v)` as a map on points. -/
def scaleApply (v p : V3) : V3 := (v.1 * p.1, v.2.1 * p.2.1, v.2.2 * p.2.2)

/-- Rotation of a point about the X axis by `a` radians. -/
noncomputable def rotateXApply (a : ℝ) (p : V3) : V3 :=
  (p.1,
   Real.cos a * p.2.1 - Real.sin a * p.2.2,
   Real.sin a * p.2.1 + Real.cos a * p.2.2)

/-- Rotation of a point about the Y axis by `a` radians. -/
noncomputable def rotateYApply (a : ℝ) (p : V3) : V3 :=
  (Real.cos a * p.1 + Real.sin a * p.2.2,
   p.2.1,
   -Real.sin a * p.1 + Real.cos a * p.2.2)

/-- Rotation of a point about the Z axis by `a` radians. -/
noncomputable def rotateZApply (a : ℝ) (p : V3) : V3 :=
  (Real.cos a * p.1 - Real.sin a * p.2.1,
   Real.sin a * p.1 + Real.cos a * p.2.1,
   p.2.2)

/-- Translation of a point — `translate(t)` as a map on points. -/
def translateApply (t p : V3) : V3 := (t.1 + p.1, t.2.1 + p.2.1, t.2.2 + p.2.2)

/-- A texture registry whose 16 slots are all occupied by distinct tags
`t0`..`t15` with handles 1..16. -/
def fullTexRegistry : TexRegistry :=
  { textureIDs :=
      [{ tag := "t0", ID := 1 }, { tag := "t1", ID := 2 },
       { tag := "t2", ID := 3 }, { tag := "t3", ID := 4 },
       { tag := "t4", ID := 5 }, { tag := "t5", ID := 6 },
       { tag := "t6", ID := 7 }, { tag := "t7", ID := 8 },
       { tag := "t8", ID := 9 }, { tag := "t9", ID := 10 },
       { tag := "t10", ID := 11 }, { tag := "t11", ID := 12 },
       { tag := "t12", ID := 13 }, { tag := "t13", ID := 14 },
       { tag := "t14", ID := 15 }, { tag := "t15", ID := 16 }]
    loadedTextures := 16 }

/-- A registry with one occupied slot: tag `wood`, handle 5. -/
def oneTexRegistry : TexRegistry :=
  { textureIDs := { tag := "wood", ID := 5 } :: List.replicate 15 { tag := "/0", ID := -1 }
    loadedTextures := 1 }

/-- A GL allocator in which handle 5 is the one live texture. -/
def oneTexGLState : GLState :=
  { nextID := 6, live := [5], genCalls := 0, deleteCalls := 0 }

/-- A shader uniform store with a previously-set `material.*` block (the
wood coefficients) and an empty write log. -/
def latentShader : ShaderState :=
  { model := 0
    bUseTexture := false
    objectColor := { r := 0, g := 0, b := 0, a := 0 }
    objectTexture := 0
    UVscale := (1, 1)
    material := some woodMat.values
    writeLog := [] }

/-- A scene with a live shader interface and one registered material. -/
def oneMaterialState : SceneState :=
  { pShaderManager := true
    shader := latentShader
    textures := sceneTextures
    m_objectMaterials := [woodMat] }

/-- A scene whose shader-interface pointer is null while one material is
registered. -/
def nullShaderState : SceneState :=
  { pShaderManager := false
    shader := latentShader
    textures := sceneTextures
    m_objectMaterials := [woodMat] }

/-- A scene whose shader-interface pointer is null and whose material
registry is empty. -/
def emptyMaterialsState : SceneState :=
  { pShaderManager := false
    shader := latentShader
    textures := sceneTextures
    m_objectMaterials := [] }

/-- Loading tags `wood` then `brick` (two successful 3-channel decodes)
into the constructor-fresh registry. -/
def loadWoodBrick : Option (Bool × TexRegistry × GLState) :=
  (CreateGLTexture true 3 "wood" initialTexRegistry initialGLState).bind fun r =>
    CreateGLTexture true 3 "brick" r.2.1 r.2.2

/-- A second material registered under the tag `paper` with a different
coefficient set than `paperMat`. -/
def paperMat2 : OBJECT_MATERIAL :=
  { paperMat with shininess := 7, diffuseColor := { x := 0.1, y := 0.1, z := 0.1 } }

/-- The index of the first entry whose tag equals `tag`: the claim's
reading of slot lookup ("the index of the first slot whose tag equals the
argument"), written without the loop's running counter. -/
def firstMatchSlot (tag : String) : List TEXTURE_ID → Option Nat
  | [] => none
  | t :: rest =>
    if t.tag = tag then some 0 else (firstMatchSlot tag rest).map (· + 1)

theorem glmScale_mulVec (v p : V3) :
    Matrix.mulVec (glmScale v) (homog p) = homog (scaleApply v p) := by
  funext i
  fin_cases i <;>
    simp [glmScale, scaleApply, homog, Matrix.mulVec, Matrix.dotProduct,
      Fin.sum_univ_four]

theorem glmRotateX_mulVec (a : ℝ) (p : V3) :
    Matrix.mulVec (glmRotateX a) (homog p) = homog (rotateXApply a p) := by
  funext i
  fin_cases i <;>
    simp [glmRotateX, rotateXApply, homog, Matrix.mulVec, Matrix.dotProduct,
      Fin.sum_univ_four]
  all_goals ring

theorem glmRotateY_mulVec (a : ℝ) (p : V3) :
    Matrix.mulVec (glmRotateY a) (homog p) = homog (rotateYApply a p) := by
  funext i
  fin_cases i <;>
    simp [glmRotateY, rotateYApply, homog, Matrix.mulVec, Matrix.dotProduct,
      Fin.sum_univ_four]

theorem glmRotateZ_mulVec (a : ℝ) (p : V3) :
    Matrix.mulVec (glmRotateZ a) (homog p) = homog (rotateZApply a p) := by
  funext i
  fin_cases i <;>
    simp [glmRotateZ, rotateZApply, homog, Matrix.mulVec, Matrix.dotProduct,
      Fin.sum_univ_four]
  all_goals ring

theorem glmTranslate_mulVec (t p : V3) :
    Matrix.mulVec (glmTranslate t) (homog p) = homog (translateApply t p) := by
  funext i
  fin_cases i <;>
    simp [glmTranslate, translateApply, homog, Matrix.mulVec, Matrix.dotProduct,
      Fin.sum_univ_four]
  all_goals ring

theorem modelView_apply (scaleXYZ : V3) (xr yr zr : ℝ) (positionXYZ p : V3) :
    Matrix.mulVec (modelViewOf scaleXYZ xr yr zr positionXYZ) (homog p) =
      homog (translateApply positionXYZ (rotateXApply (radians xr)
        (rotateYApply (radians yr) (rotateZApply (radians zr)
          (scaleApply scaleXYZ p))))) := by
  unfold modelViewOf
  rw [← Matrix.mulVec_mulVec, ← Matrix.mulVec_mulVec, ← Matrix.mulVec_mulVec,
    ← Matrix.mulVec_mulVec]
  rw [glmScale_mulVec, glmRotateZ_mulVec, glmRotateY_mulVec, glmRotateX_mulVec,
    glmTranslate_mulVec]

theorem radians_90 : radians 90 = Real.pi / 2 := by unfold radians; ring

theorem radians_0 : radians 0 = 0 := by unfold radians; ring

theorem modelView_concrete :
    Matrix.mulVec (modelViewOf (2, 1, 1) 0 0 90 (5, 0, 0)) (homog (1, 0, 0)) =
      homog (5, 2, 0) := by
  rw [modelView_apply, radians_90, radians_0]
  simp only [scaleApply, rotateZApply, rotateYApply, rotateXApply, translateApply,
    Real.cos_pi_div_two, Real.sin_pi_div_two, Real.cos_zero, Real.sin_zero]
  norm_num

theorem findMaterialLoop_first (pre post : List OBJECT_MATERIAL)
    (m1 : OBJECT_MATERIAL) (tag : String)
    (hpre : ∀ m ∈ pre, m.tag ≠ tag) (h1 : m1.tag = tag) :
    findMaterialLoop (pre ++ m1 :: post) tag = some m1.values := by
  induction pre with
  | nil => simp [findMaterialLoop, h1]
  | cons q rest ih =>
    rw [List.cons_append, findMaterialLoop]
    rw [if_neg (hpre q (by simp))]
    exact ih fun m hm => hpre m (by simp [hm])

theorem findTextureSlotLoop_eq (l : List TEXTURE_ID) (tag : String) (i : Nat) :
    findTextureSlotLoop l tag i =
      ((firstMatchSlot tag l).map (fun j => Int.ofNat (i + j))).getD (-1) := by
  induction l generalizing i with
  | nil => rfl
  | cons t rest ih =>
    by_cases h : t.tag = tag
    · simp [findTextureSlotLoop, firstMatchSlot, h]
    · simp only [findTextureSlotLoop, firstMatchSlot, if_neg h]
      rw [ih (i + 1)]
      cases hf : firstMatchSlot tag rest with
      | none => simp [hf]
      | some j =>
        simp [hf]
        omega

/-- C1: the claim says a 17th distinct-tag load into the full 16-slot
registry returns failure and leaves the 16 entries unchanged, never writing
into an out-of-range slot.  The code has no capacity check: on a registry
with all 16 slots occupied by distinct tags, a successful 3-channel decode
of a fresh 17th tag reaches the unguarded store
`m_textureIDs[m_loadedTextures]` at index 16 of the 16-element array — an
out-of-bounds write (undefined behavior, modelled as `none`) instead of the
claimed clean failure. -/
theorem c1_capacity_overflow :
    fullTexRegistry.loadedTextures = 16 ∧
    fullTexRegistry.textureIDs.length = 16 ∧
    (fullTexRegistry.textureIDs.map TEXTURE_ID.tag).Nodup ∧
    "t16" ∉ fullTexRegistry.textureIDs.map TEXTURE_ID.tag ∧
    CreateGLTexture true 3 "t16" fullTexRegistry initialGLState = none := by
  decide

/-- C2: the claim says `FindMaterial` returns found = true iff some
registered tag matches, and not-found after a full scan of a non-empty
registry with no match.  The code returns the literal `true` after the scan
loop whenever the registry is non-empty (line 250), so a one-entry registry
whose tag differs from the query still reports found = true while the
out-parameter was never written. -/
theorem c2_find_material_true_on_miss :
    woodMat.tag ≠ "xyz" ∧ FindMaterial [woodMat] "xyz" = (true, none) := by
  decide

/-- C3: the claim says `SetShaderMaterial` on an unregistered tag performs
no shader-uniform writes and leaves previously set `material.*` values
unchanged.  Because `FindMaterial` reports `true` on any non-empty registry
(C2), the code takes the found branch and writes all five `material.*`
uniforms from the never-initialized local, clobbering the previously set
wood coefficients with indeterminate values. -/
theorem c3_set_material_writes_on_miss :
    woodMat.tag ≠ "nonexistent" ∧
    oneMaterialState.shader.material = some woodMat.values ∧
    oneMaterialState.shader.writeLog = [] ∧
    (SetShaderMaterial "nonexistent" oneMaterialState).map
        (fun s => (s.shader.writeLog, s.shader.material)) =
      some (["material.ambientColor", "material.ambientStrength",
             "material.diffuseColor", "material.specularColor",
             "material.shininess"], none) :=
  ⟨by decide, rfl, rfl, rfl⟩

/-- C4 counterexample: the claim says every Transform/Draw-State write
operation no-ops without crashing when the shader pointer is null; but
`SetShaderMaterial` has no null check, and with a non-empty material
registry and a registered tag it dereferences the null pointer (undefined
behavior, modelled as `none`). -/
theorem c4_null_shader_counterexample :
    nullShaderState.pShaderManager = false ∧
    SetShaderMaterial "wood" nullShaderState = none :=
  ⟨rfl, rfl⟩

/-- C4 amended: with a null shader interface, `SetTransformations`,
`SetShaderColor`, `SetShaderTexture` and `SetTextureUVScale` perform no
shader write and do not crash, for all argument values and states; and
`SetShaderMaterial` does so only when the material registry is empty (on a
non-empty registry it dereferences the null pointer, see the
counterexample). -/
theorem c4_null_shader_amended :
    (∀ (scaleXYZ : V3) (xr yr zr : ℝ) (positionXYZ : V3) (s : SceneState),
        s.pShaderManager = false →
          SetTransformations scaleXYZ xr yr zr positionXYZ s = s) ∧
    (∀ (r g b a : ℚ) (s : SceneState), s.pShaderManager = false →
        SetShaderColor r g b a s = s) ∧
    (∀ (textureTag : String) (s : SceneState), s.pShaderManager = false →
        SetShaderTexture textureTag s = s) ∧
    (∀ (u v : ℚ) (s : SceneState), s.pShaderManager = false →
        SetTextureUVScale u v s = s) ∧
    (∀ (materialTag : String) (s : SceneState), s.pShaderManager = false →
        s.m_objectMaterials = [] → SetShaderMaterial materialTag s = some s) := by
  refine ⟨?_, ?_, ?_, ?_, ?_⟩
  · intro scaleXYZ xr yr zr positionXYZ s h
    simp [SetTransformations, h]
  · intro r g b a s h
    simp [SetShaderColor, h]
  · intro textureTag s h
    simp [SetShaderTexture, h]
  · intro u v s h
    simp [SetTextureUVScale, h]
  · intro materialTag s h hm
    simp [SetShaderMaterial, hm]

/-- C4 witness: the amended statement applied at concrete inputs on a
null-shader state with an empty material registry. -/
theorem c4_null_shader_amended_witness :
    emptyMaterialsState.pShaderManager = false ∧
    SetTransformations (1, 1, 1) 0 0 0 (0, 0, 0) emptyMaterialsState =
      emptyMaterialsState ∧
    SetShaderColor 1 0 0 1 emptyMaterialsState = emptyMaterialsState ∧
    SetShaderTexture "wood" emptyMaterialsState = emptyMaterialsState ∧
    SetTextureUVScale 1 1 emptyMaterialsState = emptyMaterialsState ∧
    SetShaderMaterial "wood" emptyMaterialsState = some emptyMaterialsState :=
  ⟨rfl,
   c4_null_shader_amended.1 (1, 1, 1) 0 0 0 (0, 0, 0) emptyMaterialsState rfl,
   c4_null_shader_amended.2.1 1 0 0 1 emptyMaterialsState rfl,
   c4_null_shader_amended.2.2.1 "wood" emptyMaterialsState rfl,
   c4_null_shader_amended.2.2.2.1 1 1 emptyMaterialsState rfl,
   c4_null_shader_amended.2.2.2.2 "wood" emptyMaterialsState rfl rfl⟩

/-- C5: the claim says teardown calls the delete-texture operation — never
generate — on every occupied slot's handle, releasing it, and clears
occupancy.  On a registry with one occupied slot (handle 5) the code's
`DestroyGLTextures` performs zero delete calls and one generate call,
leaves handle 5 live (leaked), keeps the occupancy count at 1, and stores
the freshly generated handle 6 into the slot. -/
theorem c5_teardown_generates_not_deletes :
    (DestroyGLTextures oneTexRegistry oneTexGLState).2.deleteCalls = 0 ∧
    (DestroyGLTextures oneTexRegistry oneTexGLState).2.genCalls = 1 ∧
    5 ∈ (DestroyGLTextures oneTexRegistry oneTexGLState).2.live ∧
    (DestroyGLTextures oneTexRegistry oneTexGLState).1.loadedTextures = 1 ∧
    ((DestroyGLTextures oneTexRegistry oneTexGLState).1.textureIDs.headD
        { tag := "", ID := 0 }).ID = 6 := by
  decide

/-- C6: `SetTransformations` composes the model matrix as
Translation · RotationX · RotationY · RotationZ · Scale with degree inputs
converted to radians (general part: applying the composed matrix to any
homogeneous point equals translate ∘ rotX ∘ rotY ∘ rotZ ∘ scale on that
point), and for scale (2,1,1), rotation (0,0,90°), position (5,0,0) the
matrix maps (1,0,0) exactly to (5,2,0) — exact equality over ℝ, which
subsumes the claimed 1e-5 tolerance. -/
theorem c6_transform_composition :
    (∀ (scaleXYZ : V3) (xr yr zr : ℝ) (positionXYZ p : V3),
        Matrix.mulVec (modelViewOf scaleXYZ xr yr zr positionXYZ) (homog p) =
          homog (translateApply positionXYZ (rotateXApply (radians xr)
            (rotateYApply (radians yr) (rotateZApply (radians zr)
              (scaleApply scaleXYZ p)))))) ∧
    Matrix.mulVec (modelViewOf (2, 1, 1) 0 0 90 (5, 0, 0)) (homog (1, 0, 0)) =
      homog (5, 2, 0) :=
  ⟨modelView_apply, modelView_concrete⟩

/-- C7: `FindTextureSlot` scans the occupied slots in registration order
and returns the index of the first tag match, `-1` when none matches
(general part: equality with the first-match-index function on the occupied
prefix); concretely, after loading `wood` then `brick` into an empty
registry, `brick` resolves to slot 1 and `glass` to `-1`. -/
theorem c7_find_slot_first_match :
    (∀ (reg : TexRegistry) (tag : String),
        FindTextureSlot reg tag =
          ((firstMatchSlot tag (reg.textureIDs.take reg.loadedTextures)).map
              Int.ofNat).getD (-1)) ∧
    loadWoodBrick.map
        (fun r => (FindTextureSlot r.2.1 "brick", FindTextureSlot r.2.1 "glass")) =
      some (1, -1) := by
  constructor
  · intro reg tag
    have h := findTextureSlotLoop_eq (reg.textureIDs.take reg.loadedTextures) tag 0
    simpa [FindTextureSlot] using h
  · decide

/-- C8: on a registry containing a first material with the looked-up tag,
`FindMaterial` returns that first material's coefficients whatever comes
later in the list — in particular a second material registered under the
same tag is shadowed. -/
theorem c8_first_match_shadowing :
    ∀ (pre post : List OBJECT_MATERIAL) (m1 : OBJECT_MATERIAL) (tag : String),
      (∀ m ∈ pre, m.tag ≠ tag) → m1.tag = tag →
      FindMaterial (pre ++ m1 :: post) tag = (true, some m1.values) := by
  intro pre post m1 tag hpre h1
  unfold FindMaterial
  rw [if_neg (by simp)]
  rw [findMaterialLoop_first pre post m1 tag hpre h1]

/-- C8 witness: two materials registered under tag `paper` with different
coefficients; the lookup returns the first-registered coefficients. -/
theorem c8_first_match_shadowing_witness :
    paperMat.tag = "paper" ∧ paperMat2.tag = "paper" ∧
    paperMat.values ≠ paperMat2.values ∧
    FindMaterial [paperMat, paperMat2] "paper" = (true, some paperMat.values) :=
  ⟨rfl, rfl,
   by
     intro h
     have h2 := congrArg MaterialValues.shininess h
     simp only [OBJECT_MATERIAL.values, paperMat, paperMat2] at h2
     norm_num at h2,
   c8_first_match_shadowing [] [paperMat2] paperMat "paper" (by simp) rfl⟩

/-- C10: when the material registry is empty, `SetShaderMaterial` returns
with the state untouched — no uniform writes — for every tag and every
state, in particular without dereferencing the shader pointer (the
statement covers states whose shader pointer is null). -/
theorem c10_empty_registry_no_writes :
    ∀ (materialTag : String) (s : SceneState), s.m_objectMaterials = [] →
      SetShaderMaterial materialTag s = some s := by
  intro materialTag s h
  simp [SetShaderMaterial, h]

/-- C10 witness: the theorem applied to a concrete state with an empty
material registry and a null shader pointer. -/
theorem c10_empty_registry_no_writes_witness :
    emptyMaterialsState.m_objectMaterials = [] ∧
    emptyMaterialsState.pShaderManager = false ∧
    SetShaderMaterial "nonexistent" emptyMaterialsState = some emptyMaterialsState :=
  ⟨rfl, rfl, c10_empty_registry_no_writes "nonexistent" emptyMaterialsState rfl⟩

theorem sceneTextures_is_load_result :
    (LoadScenetexture initialTexRegistry initialGLState).map Prod.fst =
      some sceneTextures := by
  decide


/-- `SetTransformations` never touches the registries, the shader-pointer
flag, or the latent sampler slot and material block. -/
theorem SetTransformations_inv (v : V3) (xr yr zr : ℝ) (p : V3) (s : SceneState) :
    (SetTransformations v xr yr zr p s).pShaderManager = s.pShaderManager ∧
    (SetTransformations v xr yr zr p s).textures = s.textures ∧
    (SetTransformations v xr yr zr p s).m_objectMaterials = s.m_objectMaterials ∧
    (SetTransformations v xr yr zr p s).shader.objectTexture = s.shader.objectTexture ∧
    (SetTransformations v xr yr zr p s).shader.material = s.shader.material := by
  unfold SetTransformations
  split <;> exact ⟨rfl, rfl, rfl, rfl, rfl⟩

/-- `SetShaderColor` never touches the registries, the shader-pointer flag,
or the latent model, sampler slot, or material block. -/
theorem SetShaderColor_inv (r g b a : ℚ) (s : SceneState) :
    (SetShaderColor r g b a s).pShaderManager = s.pShaderManager ∧
    (SetShaderColor r g b a s).textures = s.textures ∧
    (SetShaderColor r g b a s).m_objectMaterials = s.m_objectMaterials ∧
    (SetShaderColor r g b a s).shader.model = s.shader.model ∧
    (SetShaderColor r g b a s).shader.objectTexture = s.shader.objectTexture ∧
    (SetShaderColor r g b a s).shader.material = s.shader.material := by
  unfold SetShaderColor
  split <;> exact ⟨rfl, rfl, rfl, rfl, rfl, rfl⟩

/-- `SetShaderTexture` never touches the registries, the shader-pointer
flag, or the latent model or material block. -/
theorem SetShaderTexture_inv (tag : String) (s : SceneState) :
    (SetShaderTexture tag s).pShaderManager = s.pShaderManager ∧
    (SetShaderTexture tag s).textures = s.textures ∧
    (SetShaderTexture tag s).m_objectMaterials = s.m_objectMaterials ∧
    (SetShaderTexture tag s).shader.model = s.shader.model ∧
    (SetShaderTexture tag s).shader.material = s.shader.material := by
  unfold SetShaderTexture
  split <;> exact ⟨rfl, rfl, rfl, rfl, rfl⟩

/-- `SetTextureUVScale` never touches the registries, the shader-pointer
flag, or the latent model, sampler slot, or material block. -/
theorem SetTextureUVScale_inv (u v : ℚ) (s : SceneState) :
    (SetTextureUVScale u v s).pShaderManager = s.pShaderManager ∧
    (SetTextureUVScale u v s).textures = s.textures ∧
    (SetTextureUVScale u v s).m_objectMaterials = s.m_objectMaterials ∧
    (SetTextureUVScale u v s).shader.model = s.shader.model ∧
    (SetTextureUVScale u v s).shader.objectTexture = s.shader.objectTexture ∧
    (SetTextureUVScale u v s).shader.material = s.shader.material := by
  unfold SetTextureUVScale
  split <;> exact ⟨rfl, rfl, rfl, rfl, rfl, rfl⟩

/-- A non-crashing `SetShaderMaterial` call never touches the registries,
the shader-pointer flag, or the latent model or sampler slot. -/
theorem SetShaderMaterial_some_inv (tag : String) (s s2 : SceneState)
    (h : SetShaderMaterial tag s = some s2) :
    s2.pShaderManager = s.pShaderManager ∧
    s2.textures = s.textures ∧
    s2.m_objectMaterials = s.m_objectMaterials ∧
    s2.shader.model = s.shader.model ∧
    s2.shader.objectTexture = s.shader.objectTexture := by
  unfold SetShaderMaterial at h
  split at h
  · split at h
    · split at h
      · injection h with h
        subst h
        exact ⟨rfl, rfl, rfl, rfl, rfl⟩
      · exact absurd h (by simp)
    · injection h with h
      subst h
      exact ⟨rfl, rfl, rfl, rfl, rfl⟩
  · injection h with h
    subst h
    exact ⟨rfl, rfl, rfl, rfl, rfl⟩

/-- Running a builder body never changes the shader-pointer flag, the
texture registry, or the material registry. -/
theorem run_control (prog : List Instr) :
    ∀ (s : SceneState) (r : List DrawEvent × SceneState), run prog s = some r →
      r.2.pShaderManager = s.pShaderManager ∧ r.2.textures = s.textures ∧
      r.2.m_objectMaterials = s.m_objectMaterials := by
  induction prog with
  | nil =>
    intro s r h
    simp only [run, Option.some.injEq] at h
    subst h
    exact ⟨rfl, rfl, rfl⟩
  | cons i rest ih =>
    intro s r h
    simp only [run] at h
    cases i with
    | setTransformations v xr yr zr p =>
      simp only [runInstr, Option.some_bind] at h
      rcases Option.map_eq_some'.mp h with ⟨r2, hr2, hr⟩
      subst hr
      obtain ⟨h1, h2, h3⟩ := ih _ _ hr2
      obtain ⟨g1, g2, g3, _, _⟩ := SetTransformations_inv v xr yr zr p s
      exact ⟨h1.trans g1, h2.trans g2, h3.trans g3⟩
    | setShaderColor cr cg cb ca =>
      simp only [runInstr, Option.some_bind] at h
      rcases Option.map_eq_some'.mp h with ⟨r2, hr2, hr⟩
      subst hr
      obtain ⟨h1, h2, h3⟩ := ih _ _ hr2
      obtain ⟨g1, g2, g3, _, _, _⟩ := SetShaderColor_inv cr cg cb ca s
      exact ⟨h1.trans g1, h2.trans g2, h3.trans g3⟩
    | setShaderTexture tag =>
      simp only [runInstr, Option.some_bind] at h
      rcases Option.map_eq_some'.mp h with ⟨r2, hr2, hr⟩
      subst hr
      obtain ⟨h1, h2, h3⟩ := ih _ _ hr2
      obtain ⟨g1, g2, g3, _, _⟩ := SetShaderTexture_inv tag s
      exact ⟨h1.trans g1, h2.trans g2, h3.trans g3⟩
    | setTextureUVScale u v =>
      simp only [runInstr, Option.some_bind] at h
      rcases Option.map_eq_some'.mp h with ⟨r2, hr2, hr⟩
      subst hr
      obtain ⟨h1, h2, h3⟩ := ih _ _ hr2
      obtain ⟨g1, g2, g3, _, _, _⟩ := SetTextureUVScale_inv u v s
      exact ⟨h1.trans g1, h2.trans g2, h3.trans g3⟩
    | setShaderMaterial tag =>
      simp only [runInstr] at h
      rcases Option.bind_eq_some.mp h with ⟨r1, hr1, hrest⟩
      rcases Option.map_eq_some'.mp hr1 with ⟨s2, hs2, hr1e⟩
      subst hr1e
      rcases Option.map_eq_some'.mp hrest with ⟨r2, hr2, hr⟩
      subst hr
      obtain ⟨h1, h2, h3⟩ := ih _ _ hr2
      obtain ⟨g1, g2, g3, _, _⟩ := SetShaderMaterial_some_inv tag s s2 hs2
      exact ⟨h1.trans g1, h2.trans g2, h3.trans g3⟩
    | draw mesh =>
      simp only [runInstr, Option.some_bind] at h
      rcases Option.map_eq_some'.mp h with ⟨r2, hr2, hr⟩
      subst hr
      exact ih s r2 hr2

/-- On any non-empty registry `FindMaterial` reports `true` (line 250 of
the source returns the literal `true` after the scan). -/
theorem FindMaterial_fst_of_ne_nil (l : List OBJECT_MATERIAL) (tag : String)
    (hne : l ≠ []) : (FindMaterial l tag).1 = true := by
  unfold FindMaterial
  rw [if_neg (fun hc => hne (List.length_eq_zero.mp hc))]

/-- The effect of `SetTransformations` with a live shader interface. -/
theorem SetTransformations_present (v : V3) (xr yr zr : ℝ) (p : V3)
    (s : SceneState) (hp : s.pShaderManager = true) :
    SetTransformations v xr yr zr p s =
      { s with shader := { s.shader with
          model := modelViewOf v xr yr zr p
          writeLog := s.shader.writeLog ++ ["model"] } } := by
  unfold SetTransformations
  rw [if_pos hp]

/-- The effect of `SetShaderTexture` with a live shader interface. -/
theorem SetShaderTexture_present (tag : String) (s : SceneState)
    (hp : s.pShaderManager = true) :
    SetShaderTexture tag s =
      { s with shader := { s.shader with
          bUseTexture := true
          objectTexture := FindTextureSlot s.textures tag
          writeLog := s.shader.writeLog ++ ["bUseTexture", "objectTexture"] } } := by
  unfold SetShaderTexture
  rw [if_pos hp]

/-- The effect of `SetShaderMaterial` with a live shader interface and a
non-empty material registry. -/
theorem SetShaderMaterial_present (tag : String) (s : SceneState)
    (hp : s.pShaderManager = true) (hne : s.m_objectMaterials ≠ []) :
    SetShaderMaterial tag s =
      some { s with shader := { s.shader with
        material := (FindMaterial s.m_objectMaterials tag).2
        writeLog := s.shader.writeLog ++
          ["material.ambientColor", "material.ambientStrength",
           "material.diffuseColor", "material.specularColor",
           "material.shininess"] } } := by
  unfold SetShaderMaterial
  rw [if_pos (List.length_pos.mpr hne), if_pos (FindMaterial_fst_of_ne_nil _ tag hne),
    if_pos hp]

/-- A body with no transform statement leaves the latent model matrix as it
was. -/
theorem run_unwritten_model (prog : List Instr) :
    ∀ (s : SceneState) (r : List DrawEvent × SceneState),
      prog.any writesModel = false → run prog s = some r →
      r.2.shader.model = s.shader.model := by
  induction prog with
  | nil =>
    intro s r _ h
    simp only [run, Option.some.injEq] at h
    subst h
    rfl
  | cons i rest ih =>
    intro s r hw h
    rw [List.any_cons, Bool.or_eq_false_iff] at hw
    obtain ⟨hwi, hwrest⟩ := hw
    simp only [run] at h
    cases i with
    | setTransformations v xr yr zr p => simp [writesModel] at hwi
    | setShaderColor cr cg cb ca =>
      simp only [runInstr, Option.some_bind] at h
      rcases Option.map_eq_some'.mp h with ⟨r2, hr2, hr⟩
      subst hr
      exact (ih _ r2 hwrest hr2).trans (SetShaderColor_inv cr cg cb ca s).2.2.2.1
    | setShaderTexture tag =>
      simp only [runInstr, Option.some_bind] at h
      rcases Option.map_eq_some'.mp h with ⟨r2, hr2, hr⟩
      subst hr
      exact (ih _ r2 hwrest hr2).trans (SetShaderTexture_inv tag s).2.2.2.1
    | setTextureUVScale u v =>
      simp only [runInstr, Option.some_bind] at h
      rcases Option.map_eq_some'.mp h with ⟨r2, hr2, hr⟩
      subst hr
      exact (ih _ r2 hwrest hr2).trans (SetTextureUVScale_inv u v s).2.2.2.1
    | setShaderMaterial tag =>
      simp only [runInstr] at h
      rcases Option.bind_eq_some.mp h with ⟨r1, hr1, hrest⟩
      rcases Option.map_eq_some'.mp hr1 with ⟨s2, hs2, hr1e⟩
      subst hr1e
      rcases Option.map_eq_some'.mp hrest with ⟨r2, hr2, hr⟩
      subst hr
      exact (ih _ r2 hwrest hr2).trans (SetShaderMaterial_some_inv tag s s2 hs2).2.2.2.1
    | draw mesh =>
      simp only [runInstr, Option.some_bind] at h
      rcases Option.map_eq_some'.mp h with ⟨r2, hr2, hr⟩
      subst hr
      exact ih s r2 hwrest hr2

/-- A body with no texture statement leaves the latent sampler slot as it
was. -/
theorem run_unwritten_textureSlot (prog : List Instr) :
    ∀ (s : SceneState) (r : List DrawEvent × SceneState),
      prog.any writesTextureSlot = false → run prog s = some r →
      r.2.shader.objectTexture = s.shader.objectTexture := by
  induction prog with
  | nil =>
    intro s r _ h
    simp only [run, Option.some.injEq] at h
    subst h
    rfl
  | cons i rest ih =>
    intro s r hw h
    rw [List.any_cons, Bool.or_eq_false_iff] at hw
    obtain ⟨hwi, hwrest⟩ := hw
    simp only [run] at h
    cases i with
    | setShaderTexture tag => simp [writesTextureSlot] at hwi
    | setTransformations v xr yr zr p =>
      simp only [runInstr, Option.some_bind] at h
      rcases Option.map_eq_some'.mp h with ⟨r2, hr2, hr⟩
      subst hr
      exact (ih _ r2 hwrest hr2).trans (SetTransformations_inv v xr yr zr p s).2.2.2.1
    | setShaderColor cr cg cb ca =>
      simp only [runInstr, Option.some_bind] at h
      rcases Option.map_eq_some'.mp h with ⟨r2, hr2, hr⟩
      subst hr
      exact (ih _ r2 hwrest hr2).trans (SetShaderColor_inv cr cg cb ca s).2.2.2.2.1
    | setTextureUVScale u v =>
      simp only [runInstr, Option.some_bind] at h
      rcases Option.map_eq_some'.mp h with ⟨r2, hr2, hr⟩
      subst hr
      exact (ih _ r2 hwrest hr2).trans (SetTextureUVScale_inv u v s).2.2.2.2.1
    | setShaderMaterial tag =>
      simp only [runInstr] at h
      rcases Option.bind_eq_some.mp h with ⟨r1, hr1, hrest⟩
      rcases Option.map_eq_some'.mp hr1 with ⟨s2, hs2, hr1e⟩
      subst hr1e
      rcases Option.map_eq_some'.mp hrest with ⟨r2, hr2, hr⟩
      subst hr
      exact (ih _ r2 hwrest hr2).trans (SetShaderMaterial_some_inv tag s s2 hs2).2.2.2.2
    | draw mesh =>
      simp only [runInstr, Option.some_bind] at h
      rcases Option.map_eq_some'.mp h with ⟨r2, hr2, hr⟩
      subst hr
      exact ih s r2 hwrest hr2

/-- A body with no material statement leaves the latent material block as
it was. -/
theorem run_unwritten_materialBlock (prog : List Instr) :
    ∀ (s : SceneState) (r : List DrawEvent × SceneState),
      prog.any writesMaterialBlock = false → run prog s = some r →
      r.2.shader.material = s.shader.material := by
  induction prog with
  | nil =>
    intro s r _ h
    simp only [run, Option.some.injEq] at h
    subst h
    rfl
  | cons i rest ih =>
    intro s r hw h
    rw [List.any_cons, Bool.or_eq_false_iff] at hw
    obtain ⟨hwi, hwrest⟩ := hw
    simp only [run] at h
    cases i with
    | setShaderMaterial tag => simp [writesMaterialBlock] at hwi
    | setTransformations v xr yr zr p =>
      simp only [runInstr, Option.some_bind] at h
      rcases Option.map_eq_some'.mp h with ⟨r2, hr2, hr⟩
      subst hr
      exact (ih _ r2 hwrest hr2).trans (SetTransformations_inv v xr yr zr p s).2.2.2.2
    | setShaderColor cr cg cb ca =>
      simp only [runInstr, Option.some_bind] at h
      rcases Option.map_eq_some'.mp h with ⟨r2, hr2, hr⟩
      subst hr
      exact (ih _ r2 hwrest hr2).trans (SetShaderColor_inv cr cg cb ca s).2.2.2.2.2
    | setShaderTexture tag =>
      simp only [runInstr, Option.some_bind] at h
      rcases Option.map_eq_some'.mp h with ⟨r2, hr2, hr⟩
      subst hr
      exact (ih _ r2 hwrest hr2).trans (SetShaderTexture_inv tag s).2.2.2.2
    | setTextureUVScale u v =>
      simp only [runInstr, Option.some_bind] at h
      rcases Option.map_eq_some'.mp h with ⟨r2, hr2, hr⟩
      subst hr
      exact (ih _ r2 hwrest hr2).trans (SetTextureUVScale_inv u v s).2.2.2.2.2
    | draw mesh =>
      simp only [runInstr, Option.some_bind] at h
      rcases Option.map_eq_some'.mp h with ⟨r2, hr2, hr⟩
      subst hr
      exact ih s r2 hwrest hr2

/-- Trace agreement: two starting states with a live shader interface, the
same registries, and the same latent values for every field some draw reads
before the body writes it, yield the same draw-event trace. -/
theorem run_trace_agree (prog : List Instr) :
    ∀ (s t : SceneState),
      s.pShaderManager = true → t.pShaderManager = true →
      t.textures = s.textures → t.m_objectMaterials = s.m_objectMaterials →
      s.m_objectMaterials ≠ [] →
      (readsInitial writesModel prog = true → t.shader.model = s.shader.model) →
      (readsInitial writesTextureSlot prog = true →
        t.shader.objectTexture = s.shader.objectTexture) →
      (readsInitial writesMaterialBlock prog = true →
        t.shader.material = s.shader.material) →
      (run prog t).map Prod.fst = (run prog s).map Prod.fst := by
  induction prog with
  | nil => intro s t _ _ _ _ _ _ _ _; rfl
  | cons i rest ih =>
    intro s t hp hpt htex hmat hne hM hT hB
    cases i with
    | setTransformations v xr yr zr p =>
      simp only [run, runInstr, Option.some_bind, Option.map_map]
      have hcomp : (Prod.fst ∘ fun r2 : List DrawEvent × SceneState =>
          (([] : List DrawEvent) ++ r2.1, r2.2)) = Prod.fst := by
        funext r2; simp
      rw [hcomp]
      rw [SetTransformations_present v xr yr zr p s hp,
        SetTransformations_present v xr yr zr p t hpt]
      exact ih _ _ hp hpt htex hmat hne (fun _ => rfl)
        (fun hr => hT (by simpa [readsInitial, isDraw, writesTextureSlot] using hr))
        (fun hr => hB (by simpa [readsInitial, isDraw, writesMaterialBlock] using hr))
    | setShaderColor cr cg cb ca =>
      simp only [run, runInstr, Option.some_bind, Option.map_map]
      have hcomp : (Prod.fst ∘ fun r2 : List DrawEvent × SceneState =>
          (([] : List DrawEvent) ++ r2.1, r2.2)) = Prod.fst := by
        funext r2; simp
      rw [hcomp]
      unfold SetShaderColor
      rw [if_pos hp, if_pos hpt]
      exact ih _ _ hp hpt htex hmat hne
        (fun hr => hM (by simpa [readsInitial, isDraw, writesModel] using hr))
        (fun hr => hT (by simpa [readsInitial, isDraw, writesTextureSlot] using hr))
        (fun hr => hB (by simpa [readsInitial, isDraw, writesMaterialBlock] using hr))
    | setShaderTexture tag =>
      simp only [run, runInstr, Option.some_bind, Option.map_map]
      have hcomp : (Prod.fst ∘ fun r2 : List DrawEvent × SceneState =>
          (([] : List DrawEvent) ++ r2.1, r2.2)) = Prod.fst := by
        funext r2; simp
      rw [hcomp]
      rw [SetShaderTexture_present tag s hp, SetShaderTexture_present tag t hpt, htex]
      exact ih _ _ hp hpt rfl hmat hne
        (fun hr => hM (by simpa [readsInitial, isDraw, writesModel] using hr))
        (fun _ => rfl)
        (fun hr => hB (by simpa [readsInitial, isDraw, writesMaterialBlock] using hr))
    | setTextureUVScale u v =>
      simp only [run, runInstr, Option.some_bind, Option.map_map]
      have hcomp : (Prod.fst ∘ fun r2 : List DrawEvent × SceneState =>
          (([] : List DrawEvent) ++ r2.1, r2.2)) = Prod.fst := by
        funext r2; simp
      rw [hcomp]
      unfold SetTextureUVScale
      rw [if_pos hp, if_pos hpt]
      exact ih _ _ hp hpt htex hmat hne
        (fun hr => hM (by simpa [readsInitial, isDraw, writesModel] using hr))
        (fun hr => hT (by simpa [readsInitial, isDraw, writesTextureSlot] using hr))
        (fun hr => hB (by simpa [readsInitial, isDraw, writesMaterialBlock] using hr))
    | setShaderMaterial tag =>
      have hnet : t.m_objectMaterials ≠ [] := by rw [hmat]; exact hne
      simp only [run, runInstr]
      rw [SetShaderMaterial_present tag s hp hne,
        SetShaderMaterial_present tag t hpt hnet]
      simp only [Option.map_some', Option.some_bind, Option.map_map]
      have hcomp : (Prod.fst ∘ fun r2 : List DrawEvent × SceneState =>
          (([] : List DrawEvent) ++ r2.1, r2.2)) = Prod.fst := by
        funext r2; simp
      rw [hcomp, hmat]
      exact ih _ _ hp hpt htex rfl hne
        (fun hr => hM (by simpa [readsInitial, isDraw, writesModel] using hr))
        (fun hr => hT (by simpa [readsInitial, isDraw, writesTextureSlot] using hr))
        (fun _ => rfl)
    | draw mesh =>
      simp only [run, runInstr, Option.some_bind, Option.map_map]
      have hev : drawEvent t = drawEvent s := by
        unfold drawEvent
        rw [hM (by simp [readsInitial, isDraw]), hT (by simp [readsInitial, isDraw]),
          hB (by simp [readsInitial, isDraw])]
      have hcomp : ∀ (u : SceneState), (Prod.fst ∘ fun r2 : List DrawEvent × SceneState =>
          ([drawEvent u] ++ r2.1, r2.2)) = (fun l => drawEvent u :: l) ∘ Prod.fst := by
        intro u; funext r2; simp
      rw [hcomp t, hcomp s, hev, ← Option.map_map, ← Option.map_map]
      rw [ih s t hp hpt htex hmat hne
        (fun _ => hM (by simp [readsInitial, isDraw]))
        (fun _ => hT (by simp [readsInitial, isDraw]))
        (fun _ => hB (by simp [readsInitial, isDraw]))]

/-- Determinism of a builder body: when every latent field is either
written before the first draw or never written at all, a second consecutive
invocation emits the trace of the first. -/
theorem run_determinism (prog : List Instr)
    (hM : readsInitial writesModel prog = true → prog.any writesModel = false)
    (hT : readsInitial writesTextureSlot prog = true →
      prog.any writesTextureSlot = false)
    (hB : readsInitial writesMaterialBlock prog = true →
      prog.any writesMaterialBlock = false)
    (s : SceneState) (hp : s.pShaderManager = true)
    (hne : s.m_objectMaterials ≠ []) :
    builderTraceTwice (run prog) s = builderTrace (run prog) s := by
  unfold builderTraceTwice builderTrace
  cases hr : run prog s with
  | none => rfl
  | some r =>
    simp only [Option.some_bind]
    obtain ⟨hc1, hc2, hc3⟩ := run_control prog s r hr
    have key := run_trace_agree prog s r.2 hp (hc1.trans hp) hc2 hc3 hne
      (fun h => run_unwritten_model prog s r (hM h) hr)
      (fun h => run_unwritten_textureSlot prog s r (hT h) hr)
      (fun h => run_unwritten_materialBlock prog s r (hB h) hr)
    rw [key, hr]

/-- The scene registers at least one material. -/
theorem defineObjectMaterials_ne_nil : DefineObjectMaterials ≠ [] := by decide

/-- C9: on the prepared scene (loaded texture registry, defined materials,
live shader interface) with arbitrary latent shader-uniform values `sh`,
each of the seven object-builder routines emits, on a second consecutive
invocation started from the state the first invocation left behind, exactly
the draw-event sequence (model matrix, sampler slot or sentinel, material
block or none) of the first invocation: the builder bodies are literal
straight-line instruction lists with no branching, no randomness and no
external reads, and they leave the registries untouched. -/
theorem c9_builder_determinism :
    ∀ sh : ShaderState,
      builderTraceTwice MakeDesk (sceneState sh) =
        builderTrace MakeDesk (sceneState sh) ∧
      builderTraceTwice MakeBackWall (sceneState sh) =
        builderTrace MakeBackWall (sceneState sh) ∧
      builderTraceTwice MakeDeskStand (sceneState sh) =
        builderTrace MakeDeskStand (sceneState sh) ∧
      builderTraceTwice MakeMug (sceneState sh) =
        builderTrace MakeMug (sceneState sh) ∧
      builderTraceTwice MakeBooks (sceneState sh) =
        builderTrace MakeBooks (sceneState sh) ∧
      builderTraceTwice MakeLamp (sceneState sh) =
        builderTrace MakeLamp (sceneState sh) ∧
      builderTraceTwice MakePenHolder (sceneState sh) =
        builderTrace MakePenHolder (sceneState sh) :=
  fun sh =>
    ⟨run_determinism deskProg (by decide) (by decide) (by decide)
        (sceneState sh) rfl defineObjectMaterials_ne_nil,
     run_determinism backWallProg (by decide) (by decide) (by decide)
        (sceneState sh) rfl defineObjectMaterials_ne_nil,
     run_determinism deskStandProg (by decide) (by decide) (by decide)
        (sceneState sh) rfl defineObjectMaterials_ne_nil,
     run_determinism mugProg (by decide) (by decide) (by decide)
        (sceneState sh) rfl defineObjectMaterials_ne_nil,
     run_determinism booksProg (by decide) (by decide) (by decide)
        (sceneState sh) rfl defineObjectMaterials_ne_nil,
     run_determinism lampProg (by decide) (by decide) (by decide)
        (sceneState sh) rfl defineObjectMaterials_ne_nil,
     run_determinism penHolderProg (by decide) (by decide) (by decide)
        (sceneState sh) rfl defineObjectMaterials_ne_nil⟩
